import Mathlib

/-!
Shallow embedding of `src/async_scraper.py` (class `Scraper`).

The Python code fetches JSON from a list of URLs with a shared `httpx.AsyncClient`,
bounded by an `asyncio.Semaphore`, and aggregates per-URL results.  We embed it
with explicit state passing:

* `Json` models the decoded JSON payload type.
* `Response` models an `httpx.Response`: a status code and a body that either
  decodes (`body = some j`, so `response.json()` returns `j`) or does not
  (`body = none`, so `response.json()` raises).
* `NetResult` models what the network does on one `client.get(url)` call:
  a response, an `httpx.RequestError` (transport failure), or some other
  exception raised by the call.
* A `UrlSpec` is one URL together with its network environment: `env a` is the
  outcome of the `(a+1)`-th GET issued for this URL (the code issues at most two:
  the primary attempt `env 0` and the retry `env 1`).
* `PyError` models the Python exception classes distinguished by the
  `except` clauses of `fetch_json`: `httpx.HTTPStatusError`,
  `httpx.RequestError`, and any other `Exception`.  These classes are disjoint.
* `ScraperState` models the mutable state: the shared `successful_fetches`
  counter, the emitted log records, the `print` output, and (for verification)
  a count of network calls issued.

A computation that can raise is a function
`ScraperState → Except PyError α × ScraperState`: Python state mutations
performed before a `raise` persist, so the state component is returned in the
error case too.  The `asyncio.Semaphore` admission gate is modelled separately
as a small-step transition system (`GateStep`, `GateReach`) at the end of the
definitions.
-/

namespace AsyncScraper

/-- A decoded JSON-like value: null, booleans, numbers, strings, arrays and
string-keyed mappings.  Numeric values are modelled as integers. -/
inductive Json where
  | null : Json
  | bool (b : Bool) : Json
  | num (n : Int) : Json
  | str (s : String) : Json
  | arr (elems : List Json) : Json
  | obj (fields : List (String × Json)) : Json

/-- An HTTP response as seen by `fetch_json`: its status code, and its body
abstracted by what `response.json()` does with it — `some j` when the body
decodes to `j`, `none` when decoding raises. -/
structure Response where
  status : Nat
  body : Option Json

/-- Outcome of one `client.get(url)` call, decided by the environment. -/
inductive NetResult where
  | ok (resp : Response) : NetResult
  | transportError (msg : String) : NetResult
  | otherError (msg : String) : NetResult

/-- The Python exception classes that `fetch_json`'s `except` clauses
distinguish; the three classes are mutually disjoint in `httpx`. -/
inductive PyError where
  | httpStatusError (msg : String) : PyError
  | requestError (msg : String) : PyError
  | otherError (msg : String) : PyError
deriving DecidableEq

/-- One record emitted through `logging.info` / `logging.error`. -/
inductive LogEntry where
  | info (msg : String) : LogEntry
  | error (msg : String) : LogEntry
deriving DecidableEq

/-- The mutable state of a `Scraper` instance during a run, plus observation
counters used by the verification (`netCalls` counts GET calls issued). -/
structure ScraperState where
  successful_fetches : Nat
  logs : List LogEntry
  prints : List String
  netCalls : Nat
deriving DecidableEq

/-- State at the start of `run`: `__init__` sets `successful_fetches = 0`;
no logs, prints or network calls have happened yet. -/
def initState : ScraperState :=
  { successful_fetches := 0, logs := [], prints := [], netCalls := 0 }

/-- One URL together with its network environment: `env a` is what the
network does on the `(a+1)`-th GET issued for this URL. -/
structure UrlSpec where
  url : String
  env : Nat → NetResult

/-- Model of `logging.info`. -/
def logging_info (msg : String) (st : ScraperState) : ScraperState :=
  { st with logs := st.logs ++ [LogEntry.info msg] }

/-- Model of `logging.error`. -/
def logging_error (msg : String) (st : ScraperState) : ScraperState :=
  { st with logs := st.logs ++ [LogEntry.error msg] }

/-- Model of `await self.client.get(url)`: issues one network call whose
outcome `r` the environment dictates; a transport-level failure raises
`httpx.RequestError`, any other failure of the call raises a generic
exception. -/
def client_get (r : NetResult) (st : ScraperState) :
    Except PyError Response × ScraperState :=
  let st' := { st with netCalls := st.netCalls + 1 }
  match r with
  | NetResult.ok resp => (Except.ok resp, st')
  | NetResult.transportError m => (Except.error (PyError.requestError m), st')
  | NetResult.otherError m => (Except.error (PyError.otherError m), st')

/-- True exactly when `httpx.Response.raise_for_status` raises: the status
code is a 4xx client error or 5xx server error. -/
def isErrorStatus (s : Nat) : Bool :=
  decide (400 ≤ s ∧ s < 600)

/-- Model of `response.raise_for_status()`. -/
def raise_for_status (resp : Response) (st : ScraperState) :
    Except PyError Unit × ScraperState :=
  if isErrorStatus resp.status then
    (Except.error (PyError.httpStatusError "client or server error"), st)
  else
    (Except.ok (), st)

/-- Model of `response.json()`: returns the decoded body, or raises a decode
error (a plain `Exception`, caught only by the generic handler). -/
def response_json (resp : Response) (st : ScraperState) :
    Except PyError Json × ScraperState :=
  match resp.body with
  | some j => (Except.ok j, st)
  | none => (Except.error (PyError.otherError "decode failure"), st)

/-- The `try:` block of `fetch_json`, line by line:
GET the URL, `raise_for_status`, `await asyncio.sleep(1)` (no state effect at
this granularity), log success, increment the shared counter, decode and
return the body. -/
def tryBody (u : UrlSpec) (st : ScraperState) :
    Except PyError (Option Json) × ScraperState :=
  match client_get (u.env 0) st with
  | (Except.error e, st1) => (Except.error e, st1)
  | (Except.ok response, st1) =>
    match raise_for_status response st1 with
    | (Except.error e, st2) => (Except.error e, st2)
    | (Except.ok _, st2) =>
      let st3 := logging_info ("Fetched data from " ++ u.url) st2
      let st4 := { st3 with successful_fetches := st3.successful_fetches + 1 }
      match response_json response st4 with
      | (Except.error e, st5) => (Except.error e, st5)
      | (Except.ok j, st5) => (Except.ok (some j), st5)

/-- Model of `Scraper.fetch_json` for one URL: the `try:` body above, with the
three `except` clauses.  An `httpx.HTTPStatusError` is logged and absorbed; an
`httpx.RequestError` is logged and the GET retried once, the retry's outcome
(response or exception) being discarded; any other `Exception` is logged and
absorbed.  Every handler path reaches the final `return None`. -/
def fetch_json (u : UrlSpec) (st : ScraperState) :
    Except PyError (Option Json) × ScraperState :=
  match tryBody u st with
  | (Except.ok v, st') => (Except.ok v, st')
  | (Except.error (PyError.httpStatusError _), st') =>
    (Except.ok none, logging_error ("HTTP error fetching data from " ++ u.url) st')
  | (Except.error (PyError.requestError _), st') =>
    let st'' := logging_error ("Request error fetching data from " ++ u.url) st'
    match client_get (u.env 1) st'' with
    | (Except.ok _, st3) => (Except.ok none, st3)
    | (Except.error _, st3) => (Except.ok none, st3)
  | (Except.error (PyError.otherError _), st') =>
    (Except.ok none, logging_error ("Unexpected error fetching data from " ++ u.url) st')

/-- The value of one awaited `fetch_json` task.  `asyncio.gather` would
propagate an exception escaping a task; `fetch_json` never lets one escape
(theorem `fetch_json_never_raises`), so the error branch here is unreachable
and maps to `none` only to make the function total. -/
def fetchOk (u : UrlSpec) (st : ScraperState) : Option Json × ScraperState :=
  match fetch_json u st with
  | (Except.ok v, st') => (v, st')
  | (Except.error _, st') => (none, st')

/-- The fan-out/fan-in of `fetch_data`: one `fetch_json` task per URL,
results collected by `asyncio.gather` in task (input) order. -/
def gather (us : List UrlSpec) (st : ScraperState) :
    List (Option Json) × ScraperState :=
  match us with
  | [] => ([], st)
  | u :: rest =>
    let p := fetchOk u st
    let q := gather rest p.2
    (p.1 :: q.1, q.2)

/-- Model of `Scraper.fetch_data`: gather all tasks, then print the summary
line and return the result list. -/
def fetch_data (us : List UrlSpec) (st : ScraperState) :
    List (Option Json) × ScraperState :=
  let p := gather us st
  (p.1, { p.2 with prints := p.2.prints ++
    ["     Successfully fetched data for " ++ toString p.2.successful_fetches ++ " URLs."] })

/-- Model of `Scraper.run`: fetch all URLs, then `if data: return data` —
Python truthiness on a list, which is emptiness — `else` log
"No data fetched from the URLs" and return `None` (modelled as `none`). -/
def run (us : List UrlSpec) : Option (List (Option Json)) × ScraperState :=
  let p := fetch_data us initState
  if p.1.isEmpty then
    (none, logging_error "No data fetched from the URLs" p.2)
  else
    (some p.1, p.2)

/-!
Pure characterization of one fetch.  `fetch_json`'s returned value and its
effect on the shared state depend only on the `UrlSpec`, never on the incoming
state; the functions below express them directly and are related to
`fetch_json` by the theorem `fetchOk_eq`.
-/

/-- The result value one fetch produces for its URL: the decoded body when the
primary GET returns a non-error status and the body decodes; `none` (absence)
on every failure path. -/
def pureResult (u : UrlSpec) : Option Json :=
  match u.env 0 with
  | NetResult.ok resp => if isErrorStatus resp.status then none else resp.body
  | NetResult.transportError _ => none
  | NetResult.otherError _ => none

/-- How much one fetch adds to `successful_fetches`: 1 exactly when the
primary GET returns a non-error status (the increment happens before
`response.json()` is called, so a decode failure still counts). -/
def incr (u : UrlSpec) : Nat :=
  match u.env 0 with
  | NetResult.ok resp => if isErrorStatus resp.status then 0 else 1
  | NetResult.transportError _ => 0
  | NetResult.otherError _ => 0

/-- How many GET calls one fetch issues: 2 when the primary attempt is a
transport failure (the retry), 1 otherwise. -/
def netCallsOf (u : UrlSpec) : Nat :=
  match u.env 0 with
  | NetResult.transportError _ => 2
  | _ => 1

/-- The log records one fetch appends, in order. -/
def logDelta (u : UrlSpec) : List LogEntry :=
  match u.env 0 with
  | NetResult.ok resp =>
    if isErrorStatus resp.status then
      [LogEntry.error ("HTTP error fetching data from " ++ u.url)]
    else
      match resp.body with
      | some _ => [LogEntry.info ("Fetched data from " ++ u.url)]
      | none => [LogEntry.info ("Fetched data from " ++ u.url),
                 LogEntry.error ("Unexpected error fetching data from " ++ u.url)]
  | NetResult.transportError _ =>
    [LogEntry.error ("Request error fetching data from " ++ u.url)]
  | NetResult.otherError _ =>
    [LogEntry.error ("Unexpected error fetching data from " ++ u.url)]

/-- The total effect of one fetch on the shared state. -/
def applyFetch (u : UrlSpec) (st : ScraperState) : ScraperState :=
  { st with
    successful_fetches := st.successful_fetches + incr u
    logs := st.logs ++ logDelta u
    netCalls := st.netCalls + netCallsOf u }

/-- Predicate for a decode failure: the primary GET returned a non-error
status but the body did not decode. -/
def decodeFail (u : UrlSpec) : Bool :=
  match u.env 0 with
  | NetResult.ok resp => !isErrorStatus resp.status && resp.body.isNone
  | _ => false

/-- Number of non-absent entries in a result sequence. -/
def countSome (rs : List (Option Json)) : Nat :=
  rs.countP (fun r => r.isSome)

/-!
Completion-order model of the fan-in.  `asyncio.gather` stores each task's
value at the task's index, whatever order tasks finish in.  `runSched us order`
executes the fetches in completion order `order` (a permutation of the task
indices), writing each value into the slot of its originating index; a slot
still `none` has not completed.  Each fetch runs atomically here, which is
sound for the values and counters: a fetch's value and its state delta depend
only on its own `UrlSpec` (theorem `fetchOk_eq`), and the deltas commute.
-/

/-- One task completion: task `i` runs and its value is stored at slot `i`. -/
def schedStep (us : List UrlSpec) (acc : List (Option (Option Json)) × ScraperState)
    (i : Nat) : List (Option (Option Json)) × ScraperState :=
  match us[i]? with
  | some u =>
    let p := fetchOk u acc.2
    (acc.1.set i (some p.1), p.2)
  | none => acc

/-- Run the whole fan-out/fan-in with task completions in order `order`. -/
def runSched (us : List UrlSpec) (order : List Nat) :
    List (Option (Option Json)) × ScraperState :=
  order.foldl (schedStep us) (List.replicate us.length none, initState)

/-!
Admission-gate model.  Each `fetch_json` task wraps its body in
`async with self.semaphore`: it acquires one slot (suspending while the
semaphore's internal value is 0), runs, and releases the slot on every exit
path.  `GateStep` is the transition relation of this system: the state holds
the semaphore's value and each task's phase.
-/

/-- Phase of one fetch task with respect to the admission gate. -/
inductive TaskPhase where
  | pending : TaskPhase
  | holding : TaskPhase
  | done : TaskPhase
deriving DecidableEq

/-- Number of tasks currently holding a gate slot. -/
def countHolding (ts : List TaskPhase) : Nat :=
  ts.countP (fun t => t == TaskPhase.holding)

/-- Gate state: the semaphore's internal counter and the per-task phases. -/
structure GateState where
  value : Nat
  tasks : List TaskPhase
deriving DecidableEq

/-- Initial gate state of a run: `asyncio.Semaphore(cap)` and `n` launched
tasks, none yet admitted. -/
def gateInit (cap n : Nat) : GateState :=
  { value := cap, tasks := List.replicate n TaskPhase.pending }

/-- One scheduler step of the admission gate: a pending task acquires a slot
(only possible while the semaphore value is positive — `Semaphore.acquire`
suspends at 0), or a holding task finishes its fetch body and releases. -/
inductive GateStep : GateState → GateState → Prop where
  | acquire (s : GateState) (i : Nat) (hi : i < s.tasks.length)
      (hp : s.tasks.get ⟨i, hi⟩ = TaskPhase.pending) (hv : 0 < s.value) :
      GateStep s { value := s.value - 1, tasks := s.tasks.set i TaskPhase.holding }
  | release (s : GateState) (i : Nat) (hi : i < s.tasks.length)
      (hh : s.tasks.get ⟨i, hi⟩ = TaskPhase.holding) :
      GateStep s { value := s.value + 1, tasks := s.tasks.set i TaskPhase.done }

/-- States reachable in a run with gate capacity `cap` and `n` tasks, under
any interleaving. -/
inductive GateReach (cap n : Nat) : GateState → Prop where
  | start : GateReach cap n (gateInit cap n)
  | step {s s' : GateState} : GateReach cap n s → GateStep s s' → GateReach cap n s'

/-!
Concrete network environments used to evaluate the model on closed inputs.
-/

/-- A URL whose GET always succeeds with a decodable 200 response. -/
def uOk : UrlSpec :=
  { url := "https://example.test/ok"
    env := fun _ => NetResult.ok { status := 200, body := some Json.null } }

/-- A URL that is unreachable on every attempt (transport failure). -/
def uTransport : UrlSpec :=
  { url := "https://example.test/unreachable"
    env := fun _ => NetResult.transportError "connection refused" }

/-- A URL whose primary GET is a transport failure but whose retry GET
succeeds with a decodable 200 response. -/
def uTransportThenOk : UrlSpec :=
  { url := "https://example.test/flaky"
    env := fun a => if a = 0 then NetResult.transportError "timeout"
      else NetResult.ok { status := 200, body := some (Json.str "late") } }

/-- A URL answering 200 with a body that is not valid JSON. -/
def uDecodeFail : UrlSpec :=
  { url := "https://example.test/not-json"
    env := fun _ => NetResult.ok { status := 200, body := none } }

/-- A URL answering with HTTP status 404. -/
def uHttp404 : UrlSpec :=
  { url := "https://example.test/missing"
    env := fun _ => NetResult.ok { status := 404, body := none } }

/-!
Characterization lemmas.
-/

/-- One fetch raises nothing, returns exactly `pureResult u`, and transforms
the state by exactly `applyFetch u`, whatever the incoming state. -/
theorem fetch_json_eq (u : UrlSpec) (st : ScraperState) :
    fetch_json u st = (Except.ok (pureResult u), applyFetch u st) := by
  unfold fetch_json tryBody client_get raise_for_status response_json
    logging_info logging_error pureResult applyFetch incr netCallsOf logDelta
  cases h0 : u.env 0 with
  | ok resp =>
    by_cases hs : isErrorStatus resp.status
    · simp [hs]
    · cases hb : resp.body with
      | some j => simp [hs, hb]
      | none => simp [hs, hb]
  | transportError m =>
    cases h1 : u.env 1 <;> simp [Nat.add_assoc]
  | otherError m => simp

/-- The awaited value and state of one fetch task. -/
theorem fetchOk_eq (u : UrlSpec) (st : ScraperState) :
    fetchOk u st = (pureResult u, applyFetch u st) := by
  simp [fetchOk, fetch_json_eq]

/-- The fan-in returns one value per URL, in input order, and the state
effects accumulate left to right. -/
theorem gather_eq (us : List UrlSpec) (st : ScraperState) :
    gather us st = (us.map pureResult, us.foldl (fun s u => applyFetch u s) st) := by
  induction us generalizing st with
  | nil => rfl
  | cons u rest ih => simp [gather, fetchOk_eq, ih]

/-- Accumulated effect on the success counter. -/
theorem foldl_applyFetch_fetches (us : List UrlSpec) (st : ScraperState) :
    (us.foldl (fun s u => applyFetch u s) st).successful_fetches
      = st.successful_fetches + (us.map incr).sum := by
  induction us generalizing st with
  | nil => simp
  | cons u rest ih =>
    rw [List.map_cons, List.sum_cons, List.foldl_cons, ih]
    simp [applyFetch, Nat.add_assoc]

/-- Accumulated effect on the network-call count. -/
theorem foldl_applyFetch_netCalls (us : List UrlSpec) (st : ScraperState) :
    (us.foldl (fun s u => applyFetch u s) st).netCalls
      = st.netCalls + (us.map netCallsOf).sum := by
  induction us generalizing st with
  | nil => simp
  | cons u rest ih =>
    rw [List.map_cons, List.sum_cons, List.foldl_cons, ih]
    simp [applyFetch, Nat.add_assoc]

/-- The fan-in never prints; only `fetch_data` does, afterwards. -/
theorem foldl_applyFetch_prints (us : List UrlSpec) (st : ScraperState) :
    (us.foldl (fun s u => applyFetch u s) st).prints = st.prints := by
  induction us generalizing st with
  | nil => rfl
  | cons u rest ih =>
    rw [List.foldl_cons, ih]
    simp [applyFetch]

/-- The result sequence of `fetch_data` is one `pureResult` per URL, in input
order. -/
theorem fetch_data_results (us : List UrlSpec) :
    (fetch_data us initState).1 = us.map pureResult := by
  simp [fetch_data, gather_eq]

/-- The success counter after `fetch_data` is the sum of the per-fetch
increments. -/
theorem fetch_data_counter (us : List UrlSpec) :
    (fetch_data us initState).2.successful_fetches = (us.map incr).sum := by
  simp [fetch_data, gather_eq, foldl_applyFetch_fetches, initState]

/-- The network-call count after `fetch_data` is the sum of the per-fetch
call counts. -/
theorem fetch_data_netCalls (us : List UrlSpec) :
    (fetch_data us initState).2.netCalls = (us.map netCallsOf).sum := by
  simp [fetch_data, gather_eq, foldl_applyFetch_netCalls, initState]

/-- The final `if data:` of `run` neither touches the counter nor issues
network calls. -/
theorem run_counter_eq (us : List UrlSpec) :
    (run us).2.successful_fetches = (fetch_data us initState).2.successful_fetches := by
  unfold run
  by_cases h : (fetch_data us initState).1.isEmpty <;> simp [h, logging_error]

/-- The returned value of `run`: the `None` sentinel exactly when the result
list is empty — Python truthiness of a list — and the plain result list
otherwise, however many entries are absent. -/
theorem run_value_eq (us : List UrlSpec) :
    (run us).1 = if us.isEmpty then none else some (us.map pureResult) := by
  unfold run
  by_cases h : (fetch_data us initState).1.isEmpty
  · have hu : us.isEmpty := by
      rw [fetch_data_results] at h
      cases us with
      | nil => rfl
      | cons a l => simp at h
    simp [h, hu]
  · have hu : us.isEmpty = false := by
      rw [fetch_data_results] at h
      cases us with
      | nil => simp at h
      | cons a l => rfl
    rw [if_neg h]
    simp [hu, fetch_data_results]

/-- Per-fetch accounting: the counter increment is 1 for a non-absent result
and also 1 for a decode failure (the code increments before decoding). -/
theorem incr_eq (u : UrlSpec) :
    incr u = (if (pureResult u).isSome then 1 else 0)
      + (if decodeFail u then 1 else 0) := by
  unfold incr pureResult decodeFail
  cases h0 : u.env 0 with
  | ok resp =>
    by_cases hs : isErrorStatus resp.status
    · simp [hs]
    · cases hb : resp.body <;> simp [hs, hb]
  | transportError m => simp
  | otherError m => simp

/-- Summed accounting over a URL list. -/
theorem sum_incr (us : List UrlSpec) :
    (us.map incr).sum
      = (us.countP fun u => (pureResult u).isSome) + us.countP decodeFail := by
  induction us with
  | nil => simp
  | cons u rest ih =>
    rw [List.map_cons, List.sum_cons, ih, List.countP_cons, List.countP_cons, incr_eq u]
    by_cases h1 : (pureResult u).isSome <;> by_cases h2 : decodeFail u <;>
      simp [h1, h2] <;> omega

/-- A completion step never changes the number of result slots. -/
theorem schedStep_length (us : List UrlSpec)
    (acc : List (Option (Option Json)) × ScraperState) (i : Nat) :
    ((schedStep us acc i).1).length = acc.1.length := by
  unfold schedStep
  cases h : us[i]? <;> simp

/-- Any sequence of completion steps preserves the number of result slots. -/
theorem sched_foldl_length (us : List UrlSpec) (order : List Nat)
    (acc : List (Option (Option Json)) × ScraperState) :
    ((order.foldl (schedStep us) acc).1).length = acc.1.length := by
  induction order generalizing acc with
  | nil => rfl
  | cons j rest ih => rw [List.foldl_cons, ih, schedStep_length]

/-- Completing task `i` stores task `i`'s own value at slot `i`. -/
theorem schedStep_slot_self (us : List UrlSpec)
    (acc : List (Option (Option Json)) × ScraperState) (i : Nat)
    (hi : i < us.length) (hlen : acc.1.length = us.length) :
    ((schedStep us acc i).1)[i]? = some (some (pureResult us[i])) := by
  unfold schedStep
  rw [List.getElem?_eq_getElem hi]
  simp only [fetchOk_eq]
  exact List.getElem?_set_eq_of_lt _ (by rw [hlen]; exact hi)

/-- Completing task `j` leaves every other slot unchanged. -/
theorem schedStep_slot_other (us : List UrlSpec)
    (acc : List (Option (Option Json)) × ScraperState) (j i : Nat) (hij : i ≠ j) :
    ((schedStep us acc j).1)[i]? = acc.1[i]? := by
  unfold schedStep
  cases h : us[j]? with
  | none => rfl
  | some u => simp [List.getElem?_set_ne (Ne.symm hij)]

/-- Once task `i` has completed (or its slot already holds its value), the
slot holds `pureResult us[i]` after any further completions. -/
theorem sched_foldl_slot (us : List UrlSpec) (order : List Nat)
    (acc : List (Option (Option Json)) × ScraperState) (i : Nat)
    (hi : i < us.length) (hlen : acc.1.length = us.length)
    (h : i ∈ order ∨ acc.1[i]? = some (some (pureResult us[i]))) :
    ((order.foldl (schedStep us) acc).1)[i]? = some (some (pureResult us[i])) := by
  induction order generalizing acc with
  | nil =>
    rcases h with h | h
    · cases h
    · simpa using h
  | cons j rest ih =>
    rw [List.foldl_cons]
    apply ih (schedStep us acc j)
    · rw [schedStep_length]; exact hlen
    · by_cases hij : i = j
      · subst hij
        right
        exact schedStep_slot_self us acc i hi hlen
      · rcases h with h | h
        · rcases List.mem_cons.mp h with h | h
          · exact absurd h hij
          · left; exact h
        · right
          rw [schedStep_slot_other us acc j i hij]
          exact h

/-- Counting with an element replaced: the count changes by the predicate's
value at the new element minus its value at the old one. -/
theorem countP_set_aux {α : Type} (p : α → Bool) (l : List α) (i : Nat) (x : α)
    (hi : i < l.length) :
    (l.set i x).countP p + (if p (l.get ⟨i, hi⟩) then 1 else 0)
      = l.countP p + (if p x then 1 else 0) := by
  induction l generalizing i with
  | nil => cases hi
  | cons a l ih =>
    cases i with
    | zero =>
      by_cases hx : p x <;> by_cases ha : p a <;>
        simp [hx, ha, List.countP_cons, Nat.add_comm]
    | succ k =>
      have hk : k < l.length := Nat.lt_of_succ_lt_succ hi
      have ih' := ih k hk
      simp only [List.set, List.countP_cons, List.get_cons_succ]
      by_cases ha : p a <;>
        by_cases hg : p (l.get ⟨k, hk⟩) <;>
        by_cases hx : p x <;>
        simp [ha, hg, hx] at ih' ⊢ <;> omega

/-- Zero tasks hold the gate before any is admitted. -/
theorem countHolding_replicate_pending (n : Nat) :
    countHolding (List.replicate n TaskPhase.pending) = 0 := by
  induction n with
  | zero => rfl
  | succ k ih =>
    rw [List.replicate_succ]
    unfold countHolding at ih ⊢
    rw [List.countP_cons]
    simp [ih]

/-- Gate invariant: the semaphore's value plus the number of slot holders is
always the configured capacity. -/
theorem gate_invariant (cap n : Nat) (s : GateState) (h : GateReach cap n s) :
    s.value + countHolding s.tasks = cap := by
  induction h with
  | start => simp [gateInit, countHolding_replicate_pending]
  | step hr hstep ih =>
    cases hstep with
    | acquire i hi hp hv =>
      have hset := countP_set_aux (fun t => t == TaskPhase.holding) _ i
        TaskPhase.holding hi
      rw [hp] at hset
      simp at hset
      unfold countHolding at ih ⊢
      simp only [] at ih ⊢
      omega
    | release i hi hh =>
      have hset := countP_set_aux (fun t => t == TaskPhase.holding) _ i
        TaskPhase.done hi
      rw [hh] at hset
      simp at hset
      unfold countHolding at ih ⊢
      simp only [] at ih ⊢
      omega

/-!
Claim theorems.
-/

/-- C1: for every input list of URLs and every completion order of the
individual fetches, the result sequence has the same length as the input and
slot `i` holds exactly the `FetchResult` of request `i`; the canonical
`fetch_data` result is that same sequence. -/
theorem run_result_order_preserved (us : List UrlSpec) (order : List Nat)
    (hperm : List.Perm order (List.range us.length)) :
    ((runSched us order).1.length = us.length)
    ∧ (∀ i, ∀ hi : i < us.length,
        ((runSched us order).1)[i]? = some (some (pureResult us[i])))
    ∧ (fetch_data us initState).1 = us.map pureResult := by
  refine ⟨?_, ?_, fetch_data_results us⟩
  · unfold runSched
    rw [sched_foldl_length]
    simp
  · intro i hi
    unfold runSched
    apply sched_foldl_slot us order _ i hi
    · simp
    · left
      exact hperm.mem_iff.mpr (List.mem_range.mpr hi)

/-- C1 witness: two URLs completing in reverse order (the second finishes
first) still land in their originating slots. -/
theorem run_result_order_preserved_witness :
    ((runSched [uOk, uTransport] [1, 0]).1)[0]? = some (some (pureResult uOk))
    ∧ ((runSched [uOk, uTransport] [1, 0]).1)[1]? = some (some (pureResult uTransport)) :=
  ⟨(run_result_order_preserved [uOk, uTransport] [1, 0] (by decide)).2.1 0 (by decide),
   (run_result_order_preserved [uOk, uTransport] [1, 0] (by decide)).2.1 1 (by decide)⟩

/-- C2 counterexample: on a URL whose 200 response fails to decode, the run
ends with the success counter at 1 while the result sequence has no
non-absent entry — the counter does not equal the number of non-absent
results, because the code increments before calling `response.json()`. -/
theorem counter_exceeds_nonabsent_on_decode_failure :
    (run [uDecodeFail]).2.successful_fetches = 1
    ∧ countSome ((fetch_data [uDecodeFail] initState).1) = 0 :=
  ⟨rfl, rfl⟩

/-- C2 amended: at the end of every run the success counter equals the number
of non-absent entries plus the number of decode failures (fetches whose
primary GET returned a non-error status but whose body failed to decode);
the two coincide exactly when no decode failure occurred. -/
theorem counter_counts_nonabsent_plus_decode_failures (us : List UrlSpec) :
    (run us).2.successful_fetches
      = countSome ((fetch_data us initState).1) + us.countP decodeFail := by
  rw [run_counter_eq, fetch_data_counter, fetch_data_results, sum_incr]
  unfold countSome
  rw [List.countP_map]
  rfl

/-- C3 counterexample: a one-element input whose only fetch produces absence
makes `run` return the ordinary result list `[none]`, not the `None`
sentinel — a non-empty Python list is truthy whatever it contains. -/
theorem all_absence_run_returns_plain_list :
    (run [uTransport]).1 = some [none] := rfl

/-- C3 amended: for every non-empty input in which every fetch produces
absence, the run returns the ordinary result list of all-absence entries
(and adds no "no data" log); the sentinel is reserved for the empty input. -/
theorem nonempty_all_absence_returns_list (us : List UrlSpec)
    (hne : us ≠ [])
    (habs : ∀ r ∈ (fetch_data us initState).1, r = none) :
    (run us).1 = some ((fetch_data us initState).1)
    ∧ (run us).2.logs = (fetch_data us initState).2.logs := by
  have h : (fetch_data us initState).1.isEmpty = false := by
    rw [fetch_data_results]
    cases us with
    | nil => exact absurd rfl hne
    | cons a l => rfl
  constructor
  · unfold run
    rw [if_neg (by simp [h])]
  · unfold run
    rw [if_neg (by simp [h])]

/-- C3 witness: the amended statement evaluated on a single always-failing
URL. -/
theorem nonempty_all_absence_returns_list_witness :
    (run [uTransport]).1 = some ((fetch_data [uTransport] initState).1)
    ∧ (run [uTransport]).2.logs = (fetch_data [uTransport] initState).2.logs :=
  nonempty_all_absence_returns_list [uTransport] (by simp)
    (by
      intro r hr
      rw [show (fetch_data [uTransport] initState).1 = [none] from rfl] at hr
      simpa using hr)

/-- C4 counterexample: on the empty input list, `run` returns the `None`
sentinel (the empty list is falsy in Python), not an empty result
sequence. -/
theorem empty_input_yields_sentinel_cex :
    (run ([] : List UrlSpec)).1 = none
    ∧ ((run ([] : List UrlSpec)).1).isSome = false :=
  ⟨rfl, rfl⟩

/-- C4 amended: on the empty input list the run performs no network call and
ends with success count zero, but it returns the "no data" sentinel (`None`)
with the "No data fetched" error logged, not an empty result sequence. -/
theorem empty_input_behavior :
    (run ([] : List UrlSpec)).1 = none
    ∧ (run ([] : List UrlSpec)).2.successful_fetches = 0
    ∧ (run ([] : List UrlSpec)).2.netCalls = 0
    ∧ (run ([] : List UrlSpec)).2.logs
        = [LogEntry.error "No data fetched from the URLs"] :=
  ⟨rfl, rfl, rfl, rfl⟩

/-- C5: when the primary GET fails at the transport level, exactly one retry
GET is issued (two network calls in total) and the result is absence whatever
the retry's outcome, which the code discards. -/
theorem transport_failure_retry_discarded (u : UrlSpec) (m : String) (st : ScraperState)
    (h : u.env 0 = NetResult.transportError m) :
    (fetchOk u st).1 = none
    ∧ (fetchOk u st).2.netCalls = st.netCalls + 2 := by
  rw [fetchOk_eq]
  constructor
  · simp [pureResult, h]
  · simp [applyFetch, netCallsOf, h]

/-- C5 witness: a URL whose primary GET times out but whose retry succeeds
with a decodable 200 response still yields absence after exactly two
calls. -/
theorem transport_failure_retry_discarded_witness :
    (fetchOk uTransportThenOk initState).1 = none
    ∧ (fetchOk uTransportThenOk initState).2.netCalls = initState.netCalls + 2 :=
  transport_failure_retry_discarded uTransportThenOk "timeout" initState rfl

/-- C6: a 4xx/5xx response yields absence after exactly one network call (no
retry) and appends exactly one log record, the HTTP-error line. -/
theorem http_status_failure_single_call (u : UrlSpec) (resp : Response) (st : ScraperState)
    (h : u.env 0 = NetResult.ok resp) (hs : 400 ≤ resp.status ∧ resp.status < 600) :
    (fetchOk u st).1 = none
    ∧ (fetchOk u st).2.netCalls = st.netCalls + 1
    ∧ (fetchOk u st).2.logs
        = st.logs ++ [LogEntry.error ("HTTP error fetching data from " ++ u.url)] := by
  have hs' : isErrorStatus resp.status = true := by
    unfold isErrorStatus
    exact decide_eq_true hs
  rw [fetchOk_eq]
  refine ⟨?_, ?_, ?_⟩
  · simp [pureResult, h, hs']
  · simp [applyFetch, netCallsOf, h]
  · simp [applyFetch, logDelta, h, hs']

/-- C6 witness: a URL answering 404. -/
theorem http_status_failure_single_call_witness :
    (fetchOk uHttp404 initState).1 = none
    ∧ (fetchOk uHttp404 initState).2.netCalls = initState.netCalls + 1
    ∧ (fetchOk uHttp404 initState).2.logs
        = initState.logs
          ++ [LogEntry.error ("HTTP error fetching data from " ++ uHttp404.url)] :=
  http_status_failure_single_call uHttp404 { status := 404, body := none } initState
    rfl (by decide)

/-- C7: for every URL environment and state, `fetch_json` completes without
propagating any exception, returning either the decoded payload or absence
(`pureResult`): every failure path is absorbed. -/
theorem fetch_json_never_raises (u : UrlSpec) (st : ScraperState) :
    (fetch_json u st).1 = Except.ok (pureResult u) := by
  rw [fetch_json_eq]

/-- C8: a non-error (2xx) response whose body decodes yields the decoded
payload and increments the shared success counter by exactly one. -/
theorem success_returns_payload_and_increments (u : UrlSpec) (resp : Response) (j : Json)
    (st : ScraperState) (h : u.env 0 = NetResult.ok resp)
    (h2 : 200 ≤ resp.status ∧ resp.status < 300) (hb : resp.body = some j) :
    (fetchOk u st).1 = some j
    ∧ (fetchOk u st).2.successful_fetches = st.successful_fetches + 1 := by
  have hs : isErrorStatus resp.status = false := by
    unfold isErrorStatus
    simp only [decide_eq_false_iff_not]
    omega
  rw [fetchOk_eq]
  constructor
  · simp [pureResult, h, hs, hb]
  · simp [applyFetch, incr, h, hs]

/-- C8 witness: a URL answering 200 with a decodable body. -/
theorem success_returns_payload_and_increments_witness :
    (fetchOk uOk initState).1 = some Json.null
    ∧ (fetchOk uOk initState).2.successful_fetches
        = initState.successful_fetches + 1 :=
  success_returns_payload_and_increments uOk { status := 200, body := some Json.null }
    Json.null initState rfl (by decide) rfl

/-- C9: in every state reachable during a run with gate capacity `cap`,
under any interleaving of acquisitions and releases, at most `cap` fetch
tasks hold an admission-gate slot simultaneously. -/
theorem gate_holders_le_capacity (cap n : Nat) (s : GateState) (h : GateReach cap n s) :
    countHolding s.tasks ≤ cap := by
  have hinv := gate_invariant cap n s h
  omega

/-- C9 witness: capacity 2 with 2 of 2 tasks admitted — a reachable state at
the cap, still within it. -/
theorem gate_holders_le_capacity_witness :
    countHolding (GateState.mk 0 [TaskPhase.holding, TaskPhase.holding]).tasks ≤ 2 :=
  gate_holders_le_capacity 2 2 _
    (GateReach.step
      (GateReach.step GateReach.start
        (GateStep.acquire (gateInit 2 2) 0 (by decide) (by decide) (by decide)))
      (GateStep.acquire (GateState.mk 1 [TaskPhase.holding, TaskPhase.pending]) 1
        (by decide) (by decide) (by decide)))

/-- C10: `run` returns the `None` sentinel exactly when the input list is
empty; on every non-empty input it returns the ordinary result list, one
entry per input URL in order, even when every entry is absence. -/
theorem run_sentinel_iff_empty (us : List UrlSpec) :
    ((run us).1 = none ↔ us = [])
    ∧ (run us).1 = (if us.isEmpty then none else some (us.map pureResult))
    ∧ (us.map pureResult).length = us.length := by
  refine ⟨?_, run_value_eq us, by simp⟩
  rw [run_value_eq us]
  cases us with
  | nil => simp
  | cons a l => simp

end AsyncScraper
